import Mathlib

/-!
Verification development for the nerfview repository (uc-vision/nerfview).

The repository has three source files: `nerfview/render_client.py`,
`nerfview/types.py` and `nerfview/viewer.py`.  This file gives a shallow
embedding of the data model and the scheduling operations those files
define, and proves or refutes the frozen specification claims about them.

Modelling conventions:
* Python floats are modelled as rationals (all quantities the claims touch
  are produced by exact arithmetic on small literals).
* `time.time()` values are passed in explicitly as rational parameters.
* Python `int(x)` truncates toward zero; `pyInt` below reproduces that.
* Fallible code returns `Except`.  This includes `AttributeError`:
  `viewer.py` reads three attributes that are never assigned anywhere in
  the class — `self.metrics` (in `_define_guis`, hit during `__init__`),
  `self._stats_text_fn` (first statement of `update_training`) and
  `self.state` (first statement of `complete`, and the status check of
  `update_training`) — so those operations raise before performing any of
  their intended effects, and the embedding makes them return
  `VErr.attributeError` at exactly those points.
* External collaborators (the viser server, the render callback, the GUI
  widgets) are modelled at their interface: reads of the live camera pose
  become parameters, emitted render requests / render tasks are collected
  in lists instead of being executed.
-/

/-- Python `int(x)` conversion applied to a float: truncation toward zero. -/
def pyInt (q : ℚ) : ℤ := if 0 ≤ q then ⌊q⌋ else ⌈q⌉

theorem pyInt_of_nonneg (q : ℚ) (h : 0 ≤ q) : pyInt q = ⌊q⌋ := if_pos h

theorem pyInt_eq_of (q : ℚ) (n : ℤ) (h0 : 0 ≤ q) (h1 : (n : ℚ) ≤ q)
    (h2 : q < n + 1) : pyInt q = n := by
  rw [pyInt_of_nonneg q h0]
  exact Int.floor_eq_iff.mpr ⟨h1, h2⟩

/-- `render_client.py`: the `RenderConfig` dataclass.  The source declares
three plain dataclass fields with defaults and no `__post_init__`, no
property setters and no validation of any kind. -/
structure RenderConfig where
  jpeg_quality : ℤ
  max_render_res : ℤ
  fast_render_scale : ℚ
  deriving DecidableEq, Repr

/-- The dataclass defaults: `jpeg_quality=70, max_render_res=2048,
fast_render_scale=0.5`. -/
def defaultRenderConfig : RenderConfig :=
  { jpeg_quality := 70, max_render_res := 2048, fast_render_scale := 1/2 }

/-- Python attribute assignment `config.jpeg_quality = v` on the dataclass:
plain replacement, nothing is checked. -/
def RenderConfig.set_jpeg_quality (c : RenderConfig) (v : ℤ) : RenderConfig :=
  { c with jpeg_quality := v }

/-- Python attribute assignment `config.max_render_res = v` on the
dataclass: plain replacement, nothing is checked. -/
def RenderConfig.set_max_render_res (c : RenderConfig) (v : ℤ) : RenderConfig :=
  { c with max_render_res := v }

/-- Python attribute assignment `config.fast_render_scale = v` on the
dataclass: plain replacement, nothing is checked. -/
def RenderConfig.set_fast_render_scale (c : RenderConfig) (v : ℚ) : RenderConfig :=
  { c with fast_render_scale := v }

/-- `RenderClient.get_image_size` from `render_client.py`:

    if aspect > 1:
        return max_size, int(max_size / aspect)
    else:
        return int(max_size * aspect), max_size

Note that `max_size` is returned unchanged (the annotation says `int`, but
Python does not enforce it and `render` passes a float), while the derived
edge goes through `int(...)`. -/
def get_image_size (max_size aspect : ℚ) : ℚ × ℚ :=
  if 1 < aspect then (max_size, (pyInt (max_size / aspect) : ℚ))
  else ((pyInt (max_size * aspect) : ℚ), max_size)

/-- What one call of `RenderClient.render` hands to the render callback and
to `set_background_image`: the scale it was invoked with, the image size it
computed, and the jpeg quality used for the publish. -/
structure RenderRequest where
  scale : ℚ
  size : ℚ × ℚ
  jpeg_quality : ℤ
  deriving DecidableEq, Repr

/-- The state of one `RenderClient` from `render_client.py`.  The source
object also holds the viser client handle and the render callback; both are
external collaborators, so only the timestamps and the shared config are
state here. -/
structure RenderClient where
  last_render : ℚ
  last_moved : ℚ
  config : RenderConfig
  deriving DecidableEq, Repr

/-- `RenderClient.render(image_scale)`: sets `last_render` to the current
time, polls the live camera (its aspect ratio is the `aspect` parameter),
computes `get_image_size(image_scale * config.max_render_res, aspect)`, and
invokes the callback / publishes — recorded here as a `RenderRequest`. -/
def RenderClient.render (rc : RenderClient) (image_scale : ℚ) (now aspect : ℚ) :
    RenderClient × RenderRequest :=
  let rc1 := { rc with last_render := now }
  let image_size := get_image_size (image_scale * (rc1.config.max_render_res : ℚ)) aspect
  (rc1, { scale := image_scale, size := image_size, jpeg_quality := rc1.config.jpeg_quality })

/-- `RenderClient.camera_moved`: sets `last_moved` to the current time and
then calls `self.render(self.config.fast_render_scale)`.  The list of
requests records every render the handler issues (the source issues exactly
the one call). -/
def RenderClient.camera_moved (rc : RenderClient) (now aspect : ℚ) :
    RenderClient × List RenderRequest :=
  let rc1 := { rc with last_moved := now }
  let out := rc1.render rc1.config.fast_render_scale now aspect
  (out.1, [out.2])

/-- A concrete `RenderClient` holding the default config, used by the
concrete-scenario conjuncts below. -/
def rc0 : RenderClient :=
  { last_render := 0, last_moved := 0, config := defaultRenderConfig }

/-- Bounds for `get_image_size` on a positive target size: the returned
pair keeps the given edge exactly and floors the derived edge, so the
derived edge is within one pixel below the exact aspect-preserving value
and neither edge exceeds the target. -/
theorem get_image_size_bounds (m aspect : ℚ) (hm : 0 < m) (ha : 0 < aspect) :
    (get_image_size m aspect).1 ≤ m ∧
    (get_image_size m aspect).2 ≤ m ∧
    (1 < aspect →
      (get_image_size m aspect).1 = m ∧
      (get_image_size m aspect).2 ≤ m / aspect ∧
      m / aspect - 1 < (get_image_size m aspect).2) ∧
    (aspect ≤ 1 →
      (get_image_size m aspect).2 = m ∧
      (get_image_size m aspect).1 ≤ m * aspect ∧
      m * aspect - 1 < (get_image_size m aspect).1) := by
  unfold get_image_size
  by_cases h1 : 1 < aspect
  · have hq : (0 : ℚ) ≤ m / aspect := le_of_lt (div_pos hm ha)
    have hfl : ((pyInt (m / aspect) : ℤ) : ℚ) ≤ m / aspect := by
      rw [pyInt_of_nonneg _ hq]; exact Int.floor_le _
    have hlow : m / aspect - 1 < ((pyInt (m / aspect) : ℤ) : ℚ) := by
      rw [pyInt_of_nonneg _ hq]; exact Int.sub_one_lt_floor _
    have hle : m / aspect ≤ m := div_le_self (le_of_lt hm) (le_of_lt h1)
    rw [if_pos h1]
    exact ⟨le_refl m, le_trans hfl hle, fun _ => ⟨rfl, hfl, hlow⟩,
      fun hcon => absurd hcon (not_le.mpr h1)⟩
  · have hle1 : aspect ≤ 1 := not_lt.mp h1
    have hq : (0 : ℚ) ≤ m * aspect := le_of_lt (mul_pos hm ha)
    have hfl : ((pyInt (m * aspect) : ℤ) : ℚ) ≤ m * aspect := by
      rw [pyInt_of_nonneg _ hq]; exact Int.floor_le _
    have hlow : m * aspect - 1 < ((pyInt (m * aspect) : ℤ) : ℚ) := by
      rw [pyInt_of_nonneg _ hq]; exact Int.sub_one_lt_floor _
    have hle : m * aspect ≤ m := mul_le_of_le_one_right (le_of_lt hm) hle1
    rw [if_neg h1]
    exact ⟨le_trans hfl hle, le_refl m, fun hcon => absurd hcon h1,
      fun _ => ⟨rfl, hfl, hlow⟩⟩

/-- C1: for every positive scale, maximum resolution and aspect ratio, the
image size `RenderClient.render` computes (namely
`get_image_size(scale * max_render_res, aspect)`) keeps the long edge at
exactly `scale * maxRenderRes` and derives the short edge within one pixel
of the exact aspect-preserving value, with neither edge exceeding
`scale * maxRenderRes`; and in the concrete scenario (default config with
`maxRes = 2048`, `fastScale = 0.5`, aspect `1.777`) a movement-triggered
render requests image size `(1024, 576)`. -/
theorem image_size_preserves_aspect_and_cap (scale maxRes aspect : ℚ)
    (hs : 0 < scale) (hm : 0 < maxRes) (ha : 0 < aspect) :
    ((get_image_size (scale * maxRes) aspect).1 ≤ scale * maxRes ∧
     (get_image_size (scale * maxRes) aspect).2 ≤ scale * maxRes ∧
     (1 < aspect →
       (get_image_size (scale * maxRes) aspect).1 = scale * maxRes ∧
       (get_image_size (scale * maxRes) aspect).2 ≤ scale * maxRes / aspect ∧
       scale * maxRes / aspect - 1 < (get_image_size (scale * maxRes) aspect).2) ∧
     (aspect ≤ 1 →
       (get_image_size (scale * maxRes) aspect).2 = scale * maxRes ∧
       (get_image_size (scale * maxRes) aspect).1 ≤ scale * maxRes * aspect ∧
       scale * maxRes * aspect - 1 < (get_image_size (scale * maxRes) aspect).1)) ∧
    (rc0.camera_moved 0 (1777/1000)).2.map RenderRequest.size = [((1024 : ℚ), (576 : ℚ))] := by
  refine ⟨get_image_size_bounds (scale * maxRes) aspect (mul_pos hs hm) ha, ?_⟩
  have hsize : get_image_size ((1/2 : ℚ) * ((2048 : ℤ) : ℚ)) (1777/1000)
      = ((1024 : ℚ), (576 : ℚ)) := by
    have hc : (1 : ℚ) < 1777/1000 := by norm_num
    have harg : ((1/2 : ℚ) * ((2048 : ℤ) : ℚ)) / (1777/1000) = 1024000/1777 := by norm_num
    rw [get_image_size, if_pos hc, harg,
      pyInt_eq_of (1024000/1777) 576 (by norm_num) (by norm_num) (by norm_num)]
    norm_num
  show [get_image_size ((1/2 : ℚ) * ((2048 : ℤ) : ℚ)) (1777/1000)]
      = [((1024 : ℚ), (576 : ℚ))]
  rw [hsize]

/-- Witness for C1 at scale `0.5`, maxRes `2048`, aspect `1.777`. -/
theorem image_size_preserves_aspect_and_cap_witness :
    ((0 : ℚ) < 1/2 ∧ (0 : ℚ) < 2048 ∧ (0 : ℚ) < 1777/1000) ∧
    (((get_image_size ((1/2) * 2048) (1777/1000)).1 ≤ (1/2) * 2048 ∧
      (get_image_size ((1/2) * 2048) (1777/1000)).2 ≤ (1/2) * 2048 ∧
      (1 < (1777/1000 : ℚ) →
        (get_image_size ((1/2) * 2048) (1777/1000)).1 = (1/2) * 2048 ∧
        (get_image_size ((1/2) * 2048) (1777/1000)).2 ≤ (1/2) * 2048 / (1777/1000) ∧
        (1/2) * 2048 / (1777/1000) - 1 < (get_image_size ((1/2) * 2048) (1777/1000)).2) ∧
      ((1777/1000 : ℚ) ≤ 1 →
        (get_image_size ((1/2) * 2048) (1777/1000)).2 = (1/2) * 2048 ∧
        (get_image_size ((1/2) * 2048) (1777/1000)).1 ≤ (1/2) * 2048 * (1777/1000) ∧
        (1/2) * 2048 * (1777/1000) - 1 < (get_image_size ((1/2) * 2048) (1777/1000)).1)) ∧
     (rc0.camera_moved 0 (1777/1000)).2.map RenderRequest.size = [((1024 : ℚ), (576 : ℚ))]) :=
  ⟨⟨by norm_num, by norm_num, by norm_num⟩,
   image_size_preserves_aspect_and_cap (1/2) 2048 (1777/1000)
     (by norm_num) (by norm_num) (by norm_num)⟩

/-- C9: a camera-movement event first records the current time in
`last_moved` and then issues exactly one render, at the configured
`fast_render_scale` (the timestamp is in place when the render runs, which
also stamps `last_render` with the same current time). -/
theorem camera_moved_single_fast_render (rc : RenderClient) (now aspect : ℚ) :
    (rc.camera_moved now aspect).1.last_moved = now ∧
    (rc.camera_moved now aspect).1.last_render = now ∧
    (rc.camera_moved now aspect).2.map RenderRequest.scale
      = [rc.config.fast_render_scale] ∧
    (rc.camera_moved now aspect).2.map RenderRequest.size
      = [get_image_size (rc.config.fast_render_scale * (rc.config.max_render_res : ℚ)) aspect] :=
  ⟨rfl, rfl, rfl, rfl⟩

/-- C10: for aspect ratios above 1, `get_image_size` passes the long edge
through exactly as given (no rounding to an integer) and truncates the
short edge; consequently `RenderClient.render`, which passes
`image_scale * config.max_render_res` as the long edge, hands the callback
a non-integer width whenever that product is not an integer. -/
theorem get_image_size_passthrough_trunc (ms : ℚ) (rc : RenderClient)
    (image_scale now aspect : ℚ) (ha : 1 < aspect) :
    (get_image_size ms aspect).1 = ms ∧
    (get_image_size ms aspect).2 = (pyInt (ms / aspect) : ℚ) ∧
    (rc.render image_scale now aspect).2.size
      = get_image_size (image_scale * (rc.config.max_render_res : ℚ)) aspect ∧
    ((¬ ∃ n : ℤ, image_scale * (rc.config.max_render_res : ℚ) = (n : ℚ)) →
      ¬ ∃ n : ℤ, (rc.render image_scale now aspect).2.size.1 = (n : ℚ)) := by
  refine ⟨?_, ?_, rfl, ?_⟩
  · unfold get_image_size; rw [if_pos ha]
  · unfold get_image_size; rw [if_pos ha]
  · intro hni hex
    apply hni
    obtain ⟨n, hn⟩ := hex
    refine ⟨n, ?_⟩
    have hfst : (rc.render image_scale now aspect).2.size.1
        = image_scale * (rc.config.max_render_res : ℚ) := by
      show (get_image_size (image_scale * (rc.config.max_render_res : ℚ)) aspect).1
        = image_scale * (rc.config.max_render_res : ℚ)
      unfold get_image_size; rw [if_pos ha]
    rw [← hfst]; exact hn

/-- `0.3 * 2048 = 614.4` is not an integer. -/
theorem scaled_res_not_integral :
    ¬ ∃ n : ℤ, (3/10 : ℚ) * ((2048 : ℤ) : ℚ) = (n : ℚ) := by
  rintro ⟨n, hn⟩
  have h : (5 : ℚ) * (n : ℚ) = 3072 := by rw [← hn]; norm_num
  have h2 : (5 * n : ℤ) = 3072 := by exact_mod_cast h
  omega

/-- Witness for C10: with the default config and `image_scale = 0.3` the
long edge passed to the callback is `0.3 * 2048 = 614.4`, not an integer. -/
theorem get_image_size_passthrough_trunc_witness :
    (1 < (16/9 : ℚ)) ∧
    (¬ ∃ n : ℤ, (3/10 : ℚ) * ((rc0.config.max_render_res : ℤ) : ℚ) = (n : ℚ)) ∧
    (¬ ∃ n : ℤ, (rc0.render (3/10) 0 (16/9)).2.size.1 = (n : ℚ)) := by
  have hni : ¬ ∃ n : ℤ, (3/10 : ℚ) * ((rc0.config.max_render_res : ℤ) : ℚ) = (n : ℚ) :=
    scaled_res_not_integral
  exact ⟨by norm_num, hni,
    (get_image_size_passthrough_trunc ((3/10) * ((rc0.config.max_render_res : ℤ) : ℚ))
      rc0 (3/10) 0 (16/9) (by norm_num)).2.2.2 hni⟩

/-- C7 counterexample: a mutation of `RenderConfig.max_render_res` to the
out-of-range value `-5` is not rejected — the dataclass has no validation —
and the previously valid value `2048` is no longer in effect. -/
theorem render_config_mutation_not_rejected :
    (defaultRenderConfig.set_max_render_res (-5)).max_render_res = -5 ∧
    (defaultRenderConfig.set_max_render_res (-5)).max_render_res
      ≠ defaultRenderConfig.max_render_res ∧
    (defaultRenderConfig.set_fast_render_scale 7).fast_render_scale = 7 ∧
    (defaultRenderConfig.set_jpeg_quality 400).jpeg_quality = 400 := by
  refine ⟨rfl, ?_, rfl, rfl⟩
  decide

/-- C7 amended: every mutation of a `RenderConfig` field takes effect
unconditionally — in range or not — replacing the previous value; the
other fields are untouched. -/
theorem render_config_mutation_takes_effect (c : RenderConfig) (q r : ℤ) (s : ℚ) :
    (c.set_jpeg_quality q).jpeg_quality = q ∧
    (c.set_max_render_res r).max_render_res = r ∧
    (c.set_fast_render_scale s).fast_render_scale = s ∧
    (c.set_max_render_res r).jpeg_quality = c.jpeg_quality ∧
    (c.set_max_render_res r).fast_render_scale = c.fast_render_scale :=
  ⟨rfl, rfl, rfl, rfl, rfl⟩

/-!
Lock discipline of the movement-triggered render path.

`viewer.py` defines the process-wide `VIEWER_LOCK` and hands it to the
`Renderer` instances; `render_client.py` defines the movement-triggered
path and uses no lock at all: it imports `threading` and never uses it,
and references neither `VIEWER_LOCK` nor `with_viewer_lock`.  The actions
below record, in order, what the bodies of `RenderClient.render` and
`RenderClient.camera_moved` perform, so that lock coverage of the pose
read and the callback invocation is a checkable property of the trace.
-/

/-- The atomic actions relevant to the lock claim. -/
inductive RenderAction
  | acquireLock
  | releaseLock
  | setTimestamp
  | readPose
  | invokeCallback
  | publish
  deriving DecidableEq, Repr

/-- Action trace of the body of `RenderClient.render`
(`render_client.py:69-79`): `self.last_render = time.time()`, then
`self.get_camera_state()` (the live pose read), then
`self.render_fn(camera, image_size)` (the callback invocation), then
`self.client.scene.set_background_image(...)` (the publish).  No lock
acquisition or release appears anywhere in the method or the module. -/
def renderActions : List RenderAction :=
  [.setTimestamp, .readPose, .invokeCallback, .publish]

/-- Action trace of `RenderClient.camera_moved`
(`render_client.py:37-39`): records the movement time, then runs the body
of `render`. -/
def camera_movedActions : List RenderAction :=
  .setTimestamp :: renderActions

/-- The lock discipline the claim asserts, checked over an action trace:
starting with `held` locks held, every pose read and every callback
invocation must occur with at least one lock held. -/
def poseAndInvokeLocked (held : ℕ) : List RenderAction → Bool
  | [] => true
  | .acquireLock :: rest => poseAndInvokeLocked (held + 1) rest
  | .releaseLock :: rest => poseAndInvokeLocked (held - 1) rest
  | .readPose :: rest => decide (0 < held) && poseAndInvokeLocked held rest
  | .invokeCallback :: rest => decide (0 < held) && poseAndInvokeLocked held rest
  | .setTimestamp :: rest => poseAndInvokeLocked held rest
  | .publish :: rest => poseAndInvokeLocked held rest

/-- C5: the movement-triggered render path violates the required lock
discipline — `RenderClient.render` reads the camera pose and invokes the
render callback while holding no lock (its trace contains the pose read
and the invocation but no lock acquisition at all), so these invocations
are not serialized through the process-wide lock and the read-then-invoke
critical section does not exist on this path. -/
theorem render_callback_invoked_without_lock :
    poseAndInvokeLocked 0 renderActions = false ∧
    poseAndInvokeLocked 0 camera_movedActions = false ∧
    RenderAction.readPose ∈ renderActions ∧
    RenderAction.invokeCallback ∈ renderActions ∧
    RenderAction.acquireLock ∉ renderActions ∧
    RenderAction.acquireLock ∉ camera_movedActions := by
  refine ⟨rfl, rfl, ?_, ?_, ?_, ?_⟩ <;> decide

/-!
Embedding of `nerfview/viewer.py`.

The `Viewer` class binds to a viser server, owns one `Renderer` per
connected client (the `Renderer`/`RenderTask` implementation lives in
`nerfview/_renderer.py`, which the repository snapshot does not include, so
a submitted `RenderTask` is the observable render trigger here), and owns
the lifecycle status machine.

Three attributes are referenced but never assigned anywhere in the class,
and the embedding reproduces the resulting `AttributeError` paths exactly:
* `self.metrics` — read by `_define_guis` (viewer.py:111), which
  `__init__` calls, so construction itself raises and no real `Viewer`
  instance is ever produced (`Viewer.init`);
* `self._stats_text_fn` — evaluated by the first statement of
  `update_training` (viewer.py:189), so every call raises before the
  stats write, the debounce loop, the status check (which would read the
  also-never-assigned `self.state`, viewer.py:199) or any renderer
  submit (`Viewer.update_training`);
* `self.state` — written by the first statement of `complete`
  (viewer.py:211), so every call raises before setting any status,
  disabling any button or writing the terminal message
  (`Viewer.complete`).

The remaining methods (`_on_pause_train`, `_on_resume_train`, `rerender`,
`_connect_client`, `_disconnect_client`, the camera listener) reference
only attributes `__init__` assigns and are embedded by their bodies.
-/

/-- The `Status` literal type of `viewer.py`. -/
inductive Status
  | rendering
  | preparing
  | training
  | paused
  | completed
  deriving DecidableEq, Repr

/-- Metrics mapping passed to `update_training` (dict from label to a
value, already formatted as text). -/
abbrev Metrics : Type := List (String × String)

/-- Content of the stats markdown widget: either the `_metrics_text`
rendering of a metrics mapping, or the terminal completion message that
`complete` would write (`Step: ...  Training Completed!`, interpolating
`self._step`) — the latter is in fact unreachable, see `Viewer.complete`. -/
inductive StatsContent
  | metricsText (metrics : Metrics)
  | terminalText (step : ℕ)
  deriving DecidableEq, Repr

/-- Kind tag of a `RenderTask` submitted to a per-client `Renderer`
(`"move"`, `"update"`, `"rerender"` in the source).  The task also carries
a freshly polled camera state; the target client is what the claims need,
so the embedding records the client id the task was submitted for. -/
inductive TaskKind
  | move
  | update
  | rerender
  deriving DecidableEq, Repr

/-- A render task submitted to the renderer of client `clientId`. -/
structure RenderTask where
  kind : TaskKind
  clientId : ℕ
  deriving DecidableEq, Repr

/-- A `Viewer` state: lifecycle status, the pause/resume button flags,
the stats widget content, the server client set (`server.get_clients()`
keys), the renderer registry (`self._renderers` keys), the step counter
and the last camera movement time. -/
structure Viewer where
  status : Status
  pauseVisible : Bool
  pauseDisabled : Bool
  resumeVisible : Bool
  resumeDisabled : Bool
  stats : StatsContent
  serverClients : List ℕ
  renderers : List ℕ
  step : ℕ
  lastMoveTime : ℚ
  deriving DecidableEq, Repr

/-- A Python exception escaping a `Viewer` operation: `KeyError` from
indexing `self._renderers`, or `AttributeError` from reading a
never-assigned attribute. -/
inductive VErr
  | keyError
  | attributeError
  deriving DecidableEq, Repr

/-- `Viewer.__init__`: after assigning its fields and registering the
connect/disconnect hooks it calls `_define_guis`, whose first statement
renders `self._metrics_text(self.metrics)` — and `self.metrics` is never
assigned anywhere in the class, so construction raises `AttributeError`
and no `Viewer` instance is ever returned to the host. -/
def Viewer.init (_mode : Status) : Except VErr Viewer :=
  .error .attributeError

/-- A sample `Viewer` state for concrete evaluations: the field values the
assignments in `__init__` perform for training mode before `_define_guis`
raises (status `training`, pause visible and enabled, resume hidden,
empty stats, no clients, `_step = 0`, `_last_move_time = 0.0`).  No real
instance exists (see `Viewer.init`); the theorems below quantify over
arbitrary states and this supplies a concrete sample point. -/
def vT : Viewer :=
  { status := .training, pauseVisible := true, pauseDisabled := false,
    resumeVisible := false, resumeDisabled := false,
    stats := .metricsText [], serverClients := [], renderers := [],
    step := 0, lastMoveTime := 0 }

/-- `Viewer._on_pause_train`: status to `paused`, hide pause, show
resume.  (This handler uses `self.status` and real button attributes, so
it runs normally.) -/
def Viewer._on_pause_train (s : Viewer) : Viewer :=
  { s with status := .paused, pauseVisible := false, resumeVisible := true }

/-- `Viewer._on_resume_train`: status to `training`, show pause, hide
resume. -/
def Viewer._on_resume_train (s : Viewer) : Viewer :=
  { s with status := .training, pauseVisible := true, resumeVisible := false }

/-- `Viewer.complete` (viewer.py:210-218): its first statement is
`self.state.status = "completed"`, and `self.state` is never assigned, so
every call raises `AttributeError` before setting any status, disabling
either button or writing the terminal stats message — the method performs
no observable effect at all. -/
def Viewer.complete (_s : Viewer) : Except VErr Viewer :=
  .error .attributeError

/-- The `for client_id in clients: ... self._renderers[client_id].submit(...)`
loop of `rerender`: walks the server client list, indexing the renderer
registry for each id — a missing id raises `KeyError`. -/
def submitAll (cs rs : List ℕ) (k : TaskKind) : Except VErr (List RenderTask) :=
  match cs with
  | [] => .ok []
  | cid :: rest =>
    if cid ∈ rs then
      match submitAll rest rs k with
      | .ok ts => .ok ({ kind := k, clientId := cid } :: ts)
      | .error e => .error e
    else .error .keyError

/-- `Viewer.update_training(metrics)` (viewer.py:186-208): the first
statement evaluates `self._stats_text_fn(metrics)` — an attribute never
assigned anywhere in the class (`__init__` defines `_metrics_text`
instead) — so every call raises `AttributeError` there, before the stats
write, the early return, the sleep-poll debounce loop, the status check
(which reads the also-never-assigned `self.state`) and the renderer
submit loop; none of that code is reachable. -/
def Viewer.update_training (_s : Viewer) (_m : Metrics) :
    Except VErr (Viewer × List RenderTask) :=
  .error .attributeError

/-- `Viewer.rerender`: submits a `"rerender"` task for every server
client, indexing `self._renderers`.  (All attributes it touches are
assigned, so it runs its body.) -/
def Viewer.rerender (s : Viewer) : Except VErr (Viewer × List RenderTask) :=
  match submitAll s.serverClients s.renderers .rerender with
  | .ok ts => .ok (s, ts)
  | .error e => .error e

/-- `Viewer._connect_client`: the server has added the client; the handler
registers a renderer for it (and a camera-movement listener). -/
def Viewer._connect_client (s : Viewer) (cid : ℕ) : Viewer :=
  { s with serverClients := s.serverClients ++ [cid],
           renderers := s.renderers ++ [cid] }

/-- `Viewer._disconnect_client`: sets `self._renderers[client_id].running`
to `False` (raising `KeyError` if the id is absent) and pops the renderer;
the server drops the client from its own set around the callback. -/
def Viewer._disconnect_client (s : Viewer) (cid : ℕ) : Except VErr Viewer :=
  if cid ∈ s.renderers then
    .ok { s with serverClients := s.serverClients.erase cid,
                 renderers := s.renderers.erase cid }
  else .error .keyError

/-- The camera `on_update` listener registered in `_connect_client`:
records the current time in `_last_move_time` and submits a `"move"` task
to `self._renderers[client_id]` (raising `KeyError` if the id is
absent). -/
def Viewer.on_camera_update (s : Viewer) (cid : ℕ) (t : ℚ) :
    Except VErr (Viewer × List RenderTask) :=
  let s1 := { s with lastMoveTime := t }
  if cid ∈ s1.renderers then .ok (s1, [{ kind := .move, clientId := cid }])
  else .error .keyError

/-- Modelled from the spec: the publish of a finished render for a client
happens inside `Renderer` (`nerfview/_renderer.py`, absent from this
snapshot); per the spec, publishing to a closed client connection fails
silently, so a publish for a disconnected client is a no-op, never an
error. -/
def publish_to_client (_connectedClients : List ℕ) (_cid : ℕ) : Except VErr Unit :=
  .ok ()

/-- The events the viewer reacts to: transport lifecycle callbacks, camera
movement, host calls (`update_training`, `complete`), the resolution
slider (`rerender`), and GUI clicks of the pause/resume buttons. -/
inductive Event
  | connect (cid : ℕ)
  | disconnect (cid : ℕ)
  | cameraMove (cid : ℕ) (t : ℚ)
  | updateTraining (m : Metrics)
  | rerender
  | clickPause
  | clickResume
  | complete
  deriving DecidableEq, Repr

/-- One event step.  A GUI click reaches a button handler only when the
button is visible and enabled (viser renders disabled or hidden buttons
inert). -/
def handleEvent (s : Viewer) : Event → Except VErr (Viewer × List RenderTask)
  | .connect cid => .ok (s._connect_client cid, [])
  | .disconnect cid =>
    match s._disconnect_client cid with
    | .ok s' => .ok (s', [])
    | .error e => .error e
  | .cameraMove cid t => s.on_camera_update cid t
  | .updateTraining m => s.update_training m
  | .rerender => s.rerender
  | .clickPause =>
    .ok (if s.pauseVisible && !s.pauseDisabled then s._on_pause_train else s, [])
  | .clickResume =>
    .ok (if s.resumeVisible && !s.resumeDisabled then s._on_resume_train else s, [])
  | .complete =>
    match s.complete with
    | .ok s' => .ok (s', [])
    | .error e => .error e

/-- Runs a sequence of events, collecting every submitted render task;
stops at the first raised exception. -/
def run (s : Viewer) : List Event → Except VErr (Viewer × List RenderTask)
  | [] => .ok (s, [])
  | e :: es =>
    match handleEvent s e with
    | .error err => .error err
    | .ok (s', ts) =>
      match run s' es with
      | .error err => .error err
      | .ok (s'', ts') => .ok (s'', ts ++ ts')

/-- The client set after an event, as the transport maintains it. -/
def clientsAfter (cs : List ℕ) : Event → List ℕ
  | .connect cid => cs ++ [cid]
  | .disconnect cid => cs.erase cid
  | _ => cs

/-- Transport discipline: viser assigns a fresh id on connect and only
delivers disconnect and camera callbacks for currently connected
clients. -/
def validEvent (cs : List ℕ) : Event → Bool
  | .connect cid => !(decide (cid ∈ cs))
  | .disconnect cid => decide (cid ∈ cs)
  | .cameraMove cid _ => decide (cid ∈ cs)
  | _ => true

/-- A whole event sequence obeying the transport discipline. -/
def validTrace (cs : List ℕ) : List Event → Bool
  | [] => true
  | e :: es => validEvent cs e && validTrace (clientsAfter cs e) es

/-- The two host-called operations whose first statements read a
never-assigned attribute and therefore raise on every call. -/
def hostEvent : Event → Bool
  | .updateTraining _ => true
  | .complete => true
  | _ => false

/-- Event sequences containing neither of the broken host calls. -/
def hostFree : List Event → Bool
  | [] => true
  | e :: es => !hostEvent e && hostFree es

/-- The submit loop succeeds and submits one task per server client when
every server client has a registered renderer. -/
theorem submitAll_ok (k : TaskKind) :
    ∀ (cs rs : List ℕ), (∀ cid ∈ cs, cid ∈ rs) →
      submitAll cs rs k = .ok (cs.map (fun cid => { kind := k, clientId := cid })) := by
  intro cs
  induction cs with
  | nil => intro rs _; rfl
  | cons c rest ih =>
    intro rs h
    unfold submitAll
    rw [if_pos (h c (List.mem_cons_self c rest)),
      ih rs (fun x hx => h x (List.mem_cons_of_mem c hx))]
    rfl

/-- `rerender` submits one `"rerender"` task per server client when every
server client has a renderer. -/
theorem rerender_ok (s : Viewer)
    (hsub : ∀ cid ∈ s.serverClients, cid ∈ s.renderers) :
    s.rerender = .ok (s,
      s.serverClients.map (fun cid => { kind := TaskKind.rerender, clientId := cid })) := by
  unfold Viewer.rerender
  rw [submitAll_ok TaskKind.rerender s.serverClients s.renderers hsub]

/-- One valid non-host event from a state where the server client set
matches the renderer registry succeeds, preserves that match, and tracks
the transport client set. -/
theorem handleEvent_valid_ok (s : Viewer) (e : Event)
    (hinv : s.serverClients = s.renderers)
    (hv : validEvent s.serverClients e = true)
    (hh : hostEvent e = false) :
    ∃ s' ts, handleEvent s e = .ok (s', ts) ∧
      s'.serverClients = s'.renderers ∧
      s'.serverClients = clientsAfter s.serverClients e := by
  cases e with
  | connect cid =>
    refine ⟨s._connect_client cid, [], rfl, ?_, rfl⟩
    show s.serverClients ++ [cid] = s.renderers ++ [cid]
    rw [hinv]
  | disconnect cid =>
    have hv2 : decide (cid ∈ s.serverClients) = true := hv
    have hm : cid ∈ s.renderers := by
      rw [← hinv]
      exact of_decide_eq_true hv2
    have hd : s._disconnect_client cid =
        .ok { s with serverClients := s.serverClients.erase cid,
                     renderers := s.renderers.erase cid } := by
      unfold Viewer._disconnect_client
      rw [if_pos hm]
    refine ⟨{ s with serverClients := s.serverClients.erase cid,
                     renderers := s.renderers.erase cid }, [], ?_, ?_, rfl⟩
    · simp only [handleEvent, hd]
    · show s.serverClients.erase cid = s.renderers.erase cid
      rw [hinv]
  | cameraMove cid t =>
    have hv2 : decide (cid ∈ s.serverClients) = true := hv
    have hm : cid ∈ s.renderers := by
      rw [← hinv]
      exact of_decide_eq_true hv2
    refine ⟨{ s with lastMoveTime := t },
      [{ kind := .move, clientId := cid }], ?_, hinv, rfl⟩
    simp only [handleEvent]
    unfold Viewer.on_camera_update
    dsimp only
    rw [if_pos hm]
  | updateTraining m => simp [hostEvent] at hh
  | rerender =>
    have hsub : ∀ cid ∈ s.serverClients, cid ∈ s.renderers := by
      intro cid hc
      rw [← hinv]
      exact hc
    exact ⟨_, _, rerender_ok s hsub, hinv, rfl⟩
  | clickPause =>
    refine ⟨_, _, rfl, ?_, ?_⟩
    · show (if s.pauseVisible && !s.pauseDisabled then s._on_pause_train
        else s).serverClients = _
      split <;> exact hinv
    · show (if s.pauseVisible && !s.pauseDisabled then s._on_pause_train
        else s).serverClients = _
      split <;> rfl
  | clickResume =>
    refine ⟨_, _, rfl, ?_, ?_⟩
    · show (if s.resumeVisible && !s.resumeDisabled then s._on_resume_train
        else s).serverClients = _
      split <;> exact hinv
    · show (if s.resumeVisible && !s.resumeDisabled then s._on_resume_train
        else s).serverClients = _
      split <;> rfl
  | complete => simp [hostEvent] at hh

/-- A host event raises the `AttributeError` of its first statement, in
every state alike. -/
theorem handleEvent_host_error (s : Viewer) (e : Event)
    (hh : hostEvent e = true) :
    handleEvent s e = .error VErr.attributeError := by
  cases e with
  | updateTraining m => rfl
  | complete => rfl
  | connect cid => simp [hostEvent] at hh
  | disconnect cid => simp [hostEvent] at hh
  | cameraMove cid t => simp [hostEvent] at hh
  | rerender => simp [hostEvent] at hh
  | clickPause => simp [hostEvent] at hh
  | clickResume => simp [hostEvent] at hh

/-- Along any valid trace, the only exception that can be raised is the
`AttributeError` of the broken host calls: in particular no renderer
lookup ever misses, so no `KeyError` is ever raised for (or about) a
disconnected client. -/
theorem run_valid_errors_attribute : ∀ (es : List Event) (s : Viewer),
    s.serverClients = s.renderers → validTrace s.serverClients es = true →
    ∀ e, run s es = Except.error e → e = VErr.attributeError := by
  intro es
  induction es with
  | nil =>
    intro s _ _ e h
    exact Except.noConfusion h
  | cons ev rest ih =>
    intro s hinv hv e h
    have hv2 : validEvent s.serverClients ev = true ∧
        validTrace (clientsAfter s.serverClients ev) rest = true := by
      simpa [validTrace, Bool.and_eq_true] using hv
    cases hh : hostEvent ev with
    | true =>
      have hhe := handleEvent_host_error s ev hh
      simp only [run, hhe] at h
      simp only [Except.error.injEq] at h
      exact h.symm
    | false =>
      obtain ⟨s1, ts1, h1, hinv1, hafter⟩ :=
        handleEvent_valid_ok s ev hinv hv2.1 hh
      simp only [run, h1] at h
      cases hr : run s1 rest with
      | error er =>
        rw [hr] at h
        dsimp only at h
        simp only [Except.error.injEq] at h
        rw [← h]
        exact ih s1 hinv1 (by rw [hafter]; exact hv2.2) er hr
      | ok q =>
        obtain ⟨s2, ts2⟩ := q
        rw [hr] at h
        dsimp only at h
        exact Except.noConfusion h

/-- A valid trace without the broken host calls runs to completion. -/
theorem run_hostFree_ok : ∀ (es : List Event) (s : Viewer),
    s.serverClients = s.renderers → validTrace s.serverClients es = true →
    hostFree es = true → ∃ s' ts, run s es = Except.ok (s', ts) := by
  intro es
  induction es with
  | nil => intro s _ _ _; exact ⟨s, [], rfl⟩
  | cons ev rest ih =>
    intro s hinv hv hf
    have hv2 : validEvent s.serverClients ev = true ∧
        validTrace (clientsAfter s.serverClients ev) rest = true := by
      simpa [validTrace, Bool.and_eq_true] using hv
    have hf2 : hostEvent ev = false ∧ hostFree rest = true := by
      cases hhe : hostEvent ev with
      | false =>
        refine ⟨rfl, ?_⟩
        simpa [hostFree, hhe] using hf
      | true =>
        exfalso
        simp [hostFree, hhe] at hf
    obtain ⟨s1, ts1, h1, hinv1, hafter⟩ :=
      handleEvent_valid_ok s ev hinv hv2.1 hf2.1
    obtain ⟨s2, ts2, h2⟩ := ih s1 hinv1 (by rw [hafter]; exact hv2.2) hf2.2
    refine ⟨s2, ts1 ++ ts2, ?_⟩
    simp only [run, h1, h2]

/-- A viewer state in training mode with one connected client. -/
def vC2 : Viewer := { vT with serverClients := [1], renderers := [1] }

/-- C2 counterexample: with one connected client and status `training`,
two immediately successive `update_training` calls do not behave as the
claim describes — neither call completes: the first (and likewise the
second) raises `AttributeError` at the first statement of
`update_training` (`self._stats_text_fn` is never assigned), so no call
ever observes a client as already rendered or returns normally. -/
theorem update_training_calls_raise :
    run vC2 [Event.updateTraining [], Event.updateTraining []]
      = .error VErr.attributeError ∧
    (∀ s' ts, run vC2 [Event.updateTraining [], Event.updateTraining []]
      ≠ Except.ok (s', ts)) :=
  ⟨rfl, fun _ _ h => Except.noConfusion h⟩

/-- C2 amended: calling `update_training` twice in immediate succession
triggers no renders at all: every call raises `AttributeError` at its
first statement, before observing any client or reaching any renderer;
the claimed scene-changed / last-render-versus-last-update gating does
not exist anywhere in the code. -/
theorem update_training_always_raises (s : Viewer) (m1 m2 : Metrics) :
    s.update_training m1 = .error VErr.attributeError ∧
    run s [Event.updateTraining m1, Event.updateTraining m2]
      = .error VErr.attributeError :=
  ⟨rfl, rfl⟩

/-- C3 counterexample: `complete()` on the training-mode state raises
`AttributeError` at its first statement and produces no state at all, so
the stats display never shows a terminal message (the sample state keeps
its metrics text); and a subsequent `update_training` call is not a
no-op — it raises as well. -/
theorem complete_writes_nothing :
    Viewer.complete vT = .error VErr.attributeError ∧
    vT.update_training [] = .error VErr.attributeError ∧
    (∀ n : ℕ, vT.stats ≠ StatsContent.terminalText n) :=
  ⟨rfl, rfl, fun _ h => StatsContent.noConfusion h⟩

/-- C3 amended: `update_training` is never a no-op and never a render
trigger: every call raises `AttributeError` at its first statement
(`self._stats_text_fn` is never assigned) regardless of status, and
`complete` raises `AttributeError` at its first statement (`self.state`
is never assigned) without setting any status or writing any terminal
message, so there is no post-`complete` state and no terminal stats
message ever exists. -/
theorem complete_and_update_raise (s : Viewer) (m : Metrics) :
    Viewer.complete s = .error VErr.attributeError ∧
    s.update_training m = .error VErr.attributeError ∧
    handleEvent s Event.complete = .error VErr.attributeError ∧
    handleEvent s (Event.updateTraining m) = .error VErr.attributeError :=
  ⟨rfl, rfl, rfl, rfl⟩

/-- C4: the code refutes the claim.  `complete()` raises `AttributeError`
at its first statement (`self.state` is never assigned) in every state,
so it never sets the status to `completed` and never disables the
pause/resume buttons; afterwards both handlers remain fully functional —
on the training-mode state a pause click still moves the status to
`paused` and a resume click moves it back to `training`, so nothing is
terminal. -/
theorem complete_raises_pause_resume_still_work :
    (∀ s : Viewer, Viewer.complete s = .error VErr.attributeError) ∧
    handleEvent vT Event.complete = .error VErr.attributeError ∧
    handleEvent vT Event.clickPause = .ok (vT._on_pause_train, []) ∧
    (vT._on_pause_train).status = Status.paused ∧
    handleEvent (vT._on_pause_train) Event.clickResume
      = .ok ((vT._on_pause_train)._on_resume_train, []) ∧
    ((vT._on_pause_train)._on_resume_train).status = Status.training :=
  ⟨fun _ => rfl, rfl, rfl, rfl, rfl, rfl⟩

/-- C6: along every event sequence obeying the transport discipline
(fresh ids on connect; disconnect and camera callbacks only for connected
clients), starting from a state whose renderer registry matches the
server client set, no operation for a disconnected client ever raises:
every renderer lookup hits a present key, so the only exception any valid
trace can raise is the `AttributeError` that `update_training` and
`complete` throw at their first statements — identically in every state,
hence independent of any connect/disconnect history; traces of transport
and GUI events alone run to completion; and the publish of a render
finishing after its client disconnected is a silent no-op. -/
theorem disconnected_clients_never_raise (es : List Event) (s : Viewer)
    (hinv : s.serverClients = s.renderers)
    (hv : validTrace s.serverClients es = true) :
    (∀ e, run s es = Except.error e → e = VErr.attributeError) ∧
    (hostFree es = true → ∃ s' ts, run s es = Except.ok (s', ts)) ∧
    (∀ (s1 s2 : Viewer) (m : Metrics),
      s1.update_training m = s2.update_training m) ∧
    (∀ s1 s2 : Viewer, Viewer.complete s1 = Viewer.complete s2) ∧
    (∀ cs cid, publish_to_client cs cid = Except.ok ()) :=
  ⟨run_valid_errors_attribute es s hinv hv,
   run_hostFree_ok es s hinv hv,
   fun _ _ _ => rfl, fun _ _ => rfl, fun _ _ => rfl⟩

/-- A concrete host-free trace with connects, movement, rerenders, a
disconnect and button clicks. -/
def esC6 : List Event :=
  [Event.connect 1, Event.cameraMove 1 5, Event.connect 2, Event.rerender,
   Event.disconnect 1, Event.rerender, Event.clickPause, Event.clickResume]

/-- Witness for C6 on the concrete trace `esC6`. -/
theorem disconnected_clients_never_raise_witness :
    (vT.serverClients = vT.renderers) ∧
    (validTrace vT.serverClients esC6 = true) ∧
    (hostFree esC6 = true) ∧
    (∃ s' ts, run vT esC6 = Except.ok (s', ts)) :=
  ⟨rfl, by decide, by decide,
   (disconnected_clients_never_raise esC6 vT rfl (by decide)).2.1 (by decide)⟩

/-- Sleep interval of the debounce loop in `update_training`
(`time.sleep(0.05)`, viewer.py:194-196; in the current source the loop is
only reached after the crashing first statement, but the claim cites
exactly these lines and they are embedded as written). -/
def pollInterval : ℚ := 1/20

/-- The movement-recency threshold of the debounce loop
(`time.time() - self._last_move_time < 0.1`). -/
def debounceGap : ℚ := 1/10

/-- Wall-clock time at the n-th evaluation of the loop condition, entering
the loop at time `t0`: each iteration sleeps one poll interval. -/
def nowAt (t0 : ℚ) (n : ℕ) : ℚ := t0 + n * pollInterval

/-- `self._last_move_time` as seen at the n-th evaluation of the loop
condition: `moves k = true` means a camera-movement callback fired during
the k-th sleep, stamping the then-current time (end of that sleep — the
latest, hence for termination the worst, point inside it). -/
def lastMoveAt (t0 l0 : ℚ) (moves : ℕ → Bool) : ℕ → ℚ
  | 0 => l0
  | n+1 => if moves n then nowAt t0 (n+1) else lastMoveAt t0 l0 moves n

/-- The loop condition `time.time() - self._last_move_time < 0.1` at the
n-th evaluation: while it holds the loop keeps sleeping; the debounce
terminates exactly when some evaluation refutes it. -/
def debounceContinues (t0 l0 : ℚ) (moves : ℕ → Bool) (n : ℕ) : Prop :=
  nowAt t0 n - lastMoveAt t0 l0 moves n < debounceGap

theorem lastMoveAt_all_moves (n : ℕ) :
    lastMoveAt 0 0 (fun _ => true) n = nowAt 0 n := by
  cases n with
  | zero => simp [lastMoveAt, nowAt]
  | succ k => rfl

theorem nowAt_succ (t0 : ℚ) (n : ℕ) :
    nowAt t0 (n + 1) = nowAt t0 n + pollInterval := by
  unfold nowAt
  push_cast
  ring

theorem lastMoveAt_le_nowAt (t0 l0 : ℚ) (moves : ℕ → Bool) (h : l0 ≤ t0) :
    ∀ n, lastMoveAt t0 l0 moves n ≤ nowAt t0 n := by
  intro n
  induction n with
  | zero => simpa [lastMoveAt, nowAt] using h
  | succ k ih =>
    show (if moves k then nowAt t0 (k+1) else lastMoveAt t0 l0 moves k) ≤ _
    by_cases hk : moves k
    · rw [if_pos hk]
    · rw [if_neg hk]
      have hp : (0 : ℚ) ≤ pollInterval := by norm_num [pollInterval]
      calc lastMoveAt t0 l0 moves k ≤ nowAt t0 k := ih
        _ ≤ nowAt t0 (k + 1) := by rw [nowAt_succ]; linarith

theorem lastMoveAt_stall (t0 l0 : ℚ) (moves : ℕ → Bool) (k : ℕ)
    (hk : moves k = false) :
    lastMoveAt t0 l0 moves (k + 1) = lastMoveAt t0 l0 moves k := by
  show (if moves k then nowAt t0 (k+1) else lastMoveAt t0 l0 moves k) = _
  rw [hk, if_neg Bool.false_ne_true]

/-- C8 counterexample: the debounce in `update_training` is
`while time.time() - self._last_move_time < 0.1: time.sleep(0.05)` — if a
camera movement lands in every sleep interval, every evaluation of the
condition sees a movement newer than 100ms and the loop never exits: the
hold-off is an unbounded block, not a bounded wait. -/
theorem debounce_can_block_forever :
    ¬ ∃ n : ℕ, ¬ debounceContinues 0 0 (fun _ => true) n := by
  rintro ⟨n, hn⟩
  apply hn
  unfold debounceContinues
  rw [lastMoveAt_all_moves n, sub_self]
  norm_num [debounceGap]

/-- C8 amended: when a training update is about to push while a client
moved within the last 100ms, the coordinator delays the push with the
sleep-poll loop; the wait terminates within two polls once movements stop
(camera at rest from poll `N` on exits by poll `N + 2`), but under
continuous movement it blocks indefinitely — it is not a bounded wait in
general. -/
theorem debounce_terminates_when_movement_stops (t0 l0 : ℚ)
    (moves : ℕ → Bool) (N : ℕ) (h0 : l0 ≤ t0)
    (hstop : ∀ n, N ≤ n → moves n = false) :
    ∃ m, m ≤ N + 2 ∧ ¬ debounceContinues t0 l0 moves m := by
  refine ⟨N + 2, le_refl _, ?_⟩
  unfold debounceContinues
  push_neg
  have h1 : lastMoveAt t0 l0 moves (N + 2) = lastMoveAt t0 l0 moves N := by
    rw [show N + 2 = (N + 1) + 1 from rfl,
      lastMoveAt_stall t0 l0 moves (N + 1) (hstop (N + 1) (by omega)),
      lastMoveAt_stall t0 l0 moves N (hstop N (le_refl N))]
  have h2 : lastMoveAt t0 l0 moves N ≤ nowAt t0 N :=
    lastMoveAt_le_nowAt t0 l0 moves h0 N
  have h3 : nowAt t0 (N + 2) = nowAt t0 N + 2 * pollInterval := by
    unfold nowAt
    push_cast
    ring
  have h4 : debounceGap = 2 * pollInterval := by
    norm_num [debounceGap, pollInterval]
  rw [h1, h3]
  linarith

/-- Witness for C8 amended: camera at rest from the start exits by the
third condition check. -/
theorem debounce_terminates_when_movement_stops_witness :
    ((0 : ℚ) ≤ 0) ∧
    ∃ m, m ≤ 0 + 2 ∧ ¬ debounceContinues 0 0 (fun _ => false) m :=
  ⟨le_refl 0,
   debounce_terminates_when_movement_stops 0 0 (fun _ => false) 0
     (le_refl 0) (fun _ _ => rfl)⟩
